import Mathlib

/-!
Verification of `scripts/import-calendar.py`: a batch importer that reads a
JSON array of Google-Calendar event records, normalizes each record, and
upserts it into the `calendar_events` table keyed on `googleEventId`.

The embedding mirrors the script line by line:
* an input record is a `CalEvent` (optional fields, matching the `dict.get`
  accesses the script performs; a field the script distinguishes between
  "key absent" and "key present with JSON null" is `Option (Option String)`,
  a field where the two collapse to the same behaviour is `Option String`);
* `normalizeEvent` is the body of the per-record `try:` block up to the
  SQL statement (lines 70–88), returning `Except` where Python raises;
* `executeUpsert` is the `INSERT ... ON DUPLICATE KEY UPDATE` statement
  (lines 90–105) acting on a table modelled as a list of rows;
* `processEvent` / `importLoop` are the `for event in events:` loop with its
  `try/except` (lines 68–110), threading the `synced`/`errors` counters and
  the error log;
* `runMain` is `main` (lines 14–116): argument check, JSON shape check,
  `DATABASE_URL` resolution, connect, loop, exit code.
-/

namespace CalendarImport

/-- One attendee object. `email` is the value of the `email` key when present
and a string; key absent, or present with a falsy value (`null`, `""`),
behave identically in the script (both filtered out by `if a.get('email')`),
so `none` covers absent/null and `some ""` the empty string. -/
structure Attendee where
  email : Option String
deriving DecidableEq, Repr

/-- The `start` / `end` objects of a record. `dateTime` distinguishes key
absence (`none`), key present with JSON null (`some none`) and key present
with a string (`some (some s)`), because line 76 tests key presence while
lines 78–79 test truthiness. `date` is a string when present (a null `date`
is not needed by any property we state). -/
structure TimeField where
  dateTime : Option (Option String) := none
  date : Option String := none
deriving DecidableEq, Repr

/-- An input calendar-event record, with exactly the fields the script reads.
`none` means the key is absent from the JSON object (for `summary`,
`description`, `location`, `hangoutLink`, `htmlLink` it also covers a JSON
null value, which the script's `or` defaulting makes indistinguishable). -/
structure CalEvent where
  id : Option String := none
  summary : Option String := none
  description : Option String := none
  start : Option TimeField := none
  «end» : Option TimeField := none
  location : Option String := none
  attendees : Option (List Attendee) := none
  hangoutLink : Option String := none
  htmlLink : Option String := none
deriving DecidableEq, Repr

/-- Python slicing `s[:n]`: the first `n` characters (code points). -/
def pyTruncate (s : String) (n : Nat) : String :=
  ⟨s.data.take n⟩

/-- Python `a or b` on strings: `b` when `a` is falsy (empty). -/
def pyOrStr (a b : String) : String :=
  if a = "" then b else a

/-- Python `x or ...` truthiness of an optional-key, possibly-null string
field: the string when the key is present with a non-empty string value,
otherwise `none` (key absent, null value, or empty string — all falsy). -/
def truthyStr : Option (Option String) → Option String
  | some (some s) => if s = "" then none else some s
  | _ => none

/-- Lines 82–83's `str.replace('Z', '+00:00')`: every occurrence of the
single character `Z` is replaced by `+00:00` (Python `str.replace` with a
one-character pattern substitutes each occurrence independently). -/
def pyReplaceZ (s : String) : String :=
  ⟨(s.data.map (fun c => if c = 'Z' then "+00:00".data else [c])).flatten⟩

/-- A parsed `datetime.datetime` value: calendar fields plus an optional
UTC offset in minutes (`none` = naive datetime). -/
structure PyDateTime where
  year : Nat
  month : Nat
  day : Nat
  hour : Nat
  minute : Nat
  second : Nat
  tzOffset : Option Int
deriving DecidableEq, Repr

/-- Leap-year test as in Python's `calendar`/`datetime`. -/
def isLeap (y : Nat) : Bool :=
  y % 4 = 0 && (y % 100 ≠ 0 || y % 400 = 0)

/-- Days in a month, as validated by `datetime`. -/
def daysInMonth (y m : Nat) : Nat :=
  if m = 2 then (if isLeap y then 29 else 28)
  else if m = 4 || m = 6 || m = 9 || m = 11 then 30
  else 31

/-- Numeric value of a digit character. -/
def digitVal (c : Char) : Nat := c.toNat - '0'.toNat

/-- Two digit characters to a number, if both are digits. -/
def twoDigits? (c1 c2 : Char) : Option Nat :=
  if c1.isDigit && c2.isDigit then some (10 * digitVal c1 + digitVal c2) else none

/-- The `YYYY-MM-DD` date prefix of `datetime.fromisoformat` (the first 10
characters): four digits, dash, two digits, dash, two digits, with the usual
`datetime` range checks (year ≥ 1, month 1–12, day 1–days-in-month). -/
def parseDate10 : List Char → Option (Nat × Nat × Nat)
  | [y1, y2, y3, y4, '-', mo1, mo2, '-', d1, d2] =>
    if y1.isDigit && y2.isDigit && y3.isDigit && y4.isDigit then
      match twoDigits? mo1 mo2, twoDigits? d1 d2 with
      | some m, some d =>
        let y := 1000 * digitVal y1 + 100 * digitVal y2 + 10 * digitVal y3 + digitVal y4
        if 1 ≤ y ∧ 1 ≤ m ∧ m ≤ 12 ∧ 1 ≤ d ∧ d ≤ daysInMonth y m then
          some (y, m, d)
        else none
      | _, _ => none
    else none
  | _ => none

/-- The `HH[:MM[:SS]]` time part of `datetime.fromisoformat` (fractional
seconds are not modelled: no string the script builds contains them), with
range checks hour < 24, minute < 60, second < 60. -/
def parseTimeHMS : List Char → Option (Nat × Nat × Nat)
  | [h1, h2] =>
    match twoDigits? h1 h2 with
    | some h => if h < 24 then some (h, 0, 0) else none
    | none => none
  | [h1, h2, ':', m1, m2] =>
    match twoDigits? h1 h2, twoDigits? m1 m2 with
    | some h, some m => if h < 24 ∧ m < 60 then some (h, m, 0) else none
    | _, _ => none
  | [h1, h2, ':', m1, m2, ':', s1, s2] =>
    match twoDigits? h1 h2, twoDigits? m1 m2, twoDigits? s1 s2 with
    | some h, some m, some s =>
      if h < 24 ∧ m < 60 ∧ s < 60 then some (h, m, s) else none
    | _, _, _ => none
  | _ => none

/-- Split the time string at the first `-`, else the first `+` (the timezone
marker search of `_parse_isoformat_time`): returns the time characters and,
when a sign was found, the sign with the characters after it. -/
def splitTzMarker (tstr : List Char) : List Char × Option (Char × List Char) :=
  match tstr.findIdx? (· = '-') with
  | some i => (tstr.take i, some ('-', tstr.drop (i + 1)))
  | none =>
    match tstr.findIdx? (· = '+') with
    | some i => (tstr.take i, some ('+', tstr.drop (i + 1)))
    | none => (tstr, none)

/-- The `±HH:MM` timezone suffix (after the sign): two digits, colon, two
digits, offset within a day. -/
def parseTzHM : List Char → Option Nat
  | [h1, h2, ':', m1, m2] =>
    match twoDigits? h1 h2, twoDigits? m1 m2 with
    | some h, some m => if h < 24 ∧ m < 60 then some (60 * h + m) else none
    | _, _ => none
  | _ => none

/-- Model of `datetime.fromisoformat` for the formats reachable from the
script (no fractional seconds): the first 10 characters must be a valid
`YYYY-MM-DD`; a string of length ≤ 11 yields a naive midnight datetime; a
longer string has its 11th character ignored (any separator is accepted) and
the rest parsed as `HH[:MM[:SS]]` with an optional `±HH:MM` offset. -/
def fromisoformat (s : String) : Option PyDateTime :=
  let cs := s.data
  match parseDate10 (cs.take 10) with
  | none => none
  | some (y, m, d) =>
    if cs.length ≤ 11 then some ⟨y, m, d, 0, 0, 0, none⟩
    else
      match splitTzMarker (cs.drop 11) with
      | (timecs, none) =>
        (parseTimeHMS timecs).map fun (h, mi, se) => ⟨y, m, d, h, mi, se, none⟩
      | (timecs, some (sign, tzcs)) =>
        match parseTimeHMS timecs, parseTzHM tzcs with
        | some (h, mi, se), some off =>
          some ⟨y, m, d, h, mi, se, some (if sign = '-' then -(off : Int) else (off : Int))⟩
        | _, _ => none

/-- The JSON-escaping of one string as `json.dumps` performs it for the
strings at hand (backslash and double quote escaped; control-character and
non-ASCII escapes are not modelled, no email the properties use has them). -/
def jsonEscape (s : String) : String :=
  ⟨(s.data.map (fun c =>
      if c = '\\' then ['\\', '\\']
      else if c = '\"' then ['\\', '\"']
      else [c])).flatten⟩

/-- Serialization of a list of strings as `json.dumps` performs it: `[]`
for the empty list, otherwise the quoted elements joined by `", "` (the
default separator). -/
def jsonDumpsStrList (xs : List String) : String :=
  "[" ++ String.intercalate ", " (xs.map (fun s => "\"" ++ jsonEscape s ++ "\"")) ++ "]"

/-- A normalized row as bound to the SQL placeholders of line 105, before
the database adds `syncedAt = NOW()`. -/
structure NormRow where
  googleEventId : String
  summary : String
  description : Option String
  startTime : PyDateTime
  endTime : PyDateTime
  isAllDay : Bool
  location : Option String
  attendees : String
  hangoutLink : Option String
  htmlLink : Option String
deriving DecidableEq, Repr

/-- A stored row of the `calendar_events` table: the normalized fields plus
`syncedAt` (time modelled as a natural number). -/
structure Row extends NormRow where
  syncedAt : Nat
deriving DecidableEq, Repr

/-- Attach `syncedAt` to a normalized row, as the `NOW()` of lines 93/104. -/
def NormRow.toRow (nr : NormRow) (now : Nat) : Row :=
  { toNormRow := nr, syncedAt := now }

/-- Lines 78–79: `start.get('dateTime') or f"{start.get('date', '2026-01-01')}T..."`
— the `dateTime` value when truthy, else the `date` value (or the fallback
date) with the given time-of-day suffix appended. -/
def resolveTimeStr (tf : TimeField) (suffix : String) : String :=
  (truthyStr tf.dateTime).getD (tf.date.getD "2026-01-01" ++ suffix)

/-- Line 71: `(event.get('summary', 'Untitled') or 'Untitled')[:500]`. -/
def normSummary (summary : Option String) : String :=
  pyTruncate (pyOrStr (summary.getD "Untitled") "Untitled") 500

/-- Lines 85, 87, 88: `(event.get(k) or '')[:500] or None`. -/
def normOptText (v : Option String) : Option String :=
  let t := pyTruncate (v.getD "") 500
  if t = "" then none else some t

/-- Line 86: the attendee email list — `a.get('email', '')` for each
attendee passing the truthiness filter `if a.get('email')`. -/
def attendeeEmails (attendees : Option (List Attendee)) : List String :=
  (attendees.getD []).filterMap fun a =>
    match a.email with
    | some s => if s = "" then none else some s
    | none => none

/-- The body of the per-record `try:` block, lines 70–88: every field
normalization, with `datetime.fromisoformat` failure surfacing as the
exception the `except` clause catches (the only failure point reachable
over this input model). -/
def normalizeEvent (e : CalEvent) : Except String NormRow :=
  let googleEventId := e.id.getD ""
  let summary := normSummary e.summary
  let description := e.description
  let start := e.start.getD {}
  let «end» := e.«end».getD {}
  let isAllDay := start.dateTime.isNone
  let startTimeStr := resolveTimeStr start "T00:00:00+00:00"
  let endTimeStr := resolveTimeStr «end» "T23:59:59+00:00"
  match fromisoformat (pyReplaceZ startTimeStr) with
  | none => .error ("Invalid isoformat string: " ++ pyReplaceZ startTimeStr)
  | some startDt =>
    match fromisoformat (pyReplaceZ endTimeStr) with
    | none => .error ("Invalid isoformat string: " ++ pyReplaceZ endTimeStr)
    | some endDt =>
      .ok
        { googleEventId := googleEventId
          summary := summary
          description := description
          startTime := startDt
          endTime := endDt
          isAllDay := isAllDay
          location := normOptText e.location
          attendees := jsonDumpsStrList (attendeeEmails e.attendees)
          hangoutLink := normOptText e.hangoutLink
          htmlLink := normOptText e.htmlLink }

/-- The stored table: the rows of `calendar_events`, in insertion order. -/
abbrev Table := List Row

/-- The `googleEventId` column of the table, in row order. -/
def keysOf (t : Table) : List String :=
  t.map (fun x => x.googleEventId)

/-- Whether some row already carries the given key (the duplicate-key test
the database performs against the unique index on `googleEventId`). -/
def hasKey (t : Table) (k : String) : Bool :=
  t.any (fun x => x.googleEventId = k)

/-- Lines 90–105: `INSERT ... ON DUPLICATE KEY UPDATE` against the unique
key on `googleEventId` — a row with the same key is overwritten (every
field except the key takes the new value, `syncedAt` becomes `NOW()`);
otherwise a fresh row is appended, also stamped `NOW()`. -/
def executeUpsert (t : Table) (nr : NormRow) (now : Nat) : Table :=
  if hasKey t nr.googleEventId then
    t.map fun x =>
      if x.googleEventId = nr.googleEventId then nr.toRow now else x
  else t ++ [nr.toRow now]

/-- The mutable state of the import loop: the table plus the `synced` and
`errors` counters (lines 65–66) and the error lines printed by line 109,
as pairs of the logged id (`event.get('id', 'unknown')`) and the message. -/
structure LoopState where
  table : Table
  synced : Nat
  errors : Nat
  log : List (String × String)
deriving DecidableEq, Repr

/-- One iteration of the loop, lines 68–110: normalize and upsert inside
`try`, incrementing `synced`; on an exception, log the record's id and the
error and increment `errors`. -/
def processEvent (now : Nat) (s : LoopState) (e : CalEvent) : LoopState :=
  match normalizeEvent e with
  | .ok nr =>
    { s with table := executeUpsert s.table nr now, synced := s.synced + 1 }
  | .error msg =>
    { s with errors := s.errors + 1, log := s.log ++ [(e.id.getD "unknown", msg)] }

/-- The whole `for event in events:` loop. -/
def importLoop (now : Nat) (events : List CalEvent) (s : LoopState) : LoopState :=
  events.foldl (processEvent now) s

/-- The `result` field of the parsed JSON document: either a list of event
records or some non-list value (line 26 rejects the latter). -/
inductive ResultVal
  | list (es : List CalEvent)
  | notList

/-- The outcome of reading and parsing the input file (lines 22–23):
`malformed` when `json.load` raises, otherwise the optional `result` field. -/
inductive JsonInput
  | malformed
  | doc (result : Option ResultVal)

/-- Strip every leading and trailing occurrence of one character, as
Python `str.strip(c)`. -/
def stripChar (s : String) (c : Char) : String :=
  ⟨((s.data.dropWhile (· = c)).reverse.dropWhile (· = c)).reverse⟩

/-- Lines 38–42: scan the `.env` lines for the first one starting with
`DATABASE_URL=` and take what follows the first `=`, whitespace-trimmed and
stripped of surrounding double then single quotes; `""` when no line
matches (the loop then leaves `db_url` empty). -/
def envFileDbUrl (lines : List String) : String :=
  match lines.find? (·.startsWith "DATABASE_URL=") with
  | some line =>
    stripChar (stripChar (String.intercalate "=" (line.splitOn "=").tail).trim '\"')
      (Char.ofNat 39)
  | none => ""

/-- Lines 33–42: `DATABASE_URL` from the environment, defaulting to `""`;
when that is falsy, from the `.env` file if it exists (`none` = no file). -/
def findDbUrl (envVar : Option String) (envFile : Option (List String)) : String :=
  let dbUrl := envVar.getD ""
  if dbUrl = "" then
    match envFile with
    | some lines => envFileDbUrl lines
    | none => ""
  else dbUrl

/-- The observable outcome of one run: the process exit code, the final
table, the two counters and the error log. A fatal exit leaves the table
untouched and the counters at zero. -/
structure RunResult where
  exitCode : Nat
  table : Table
  synced : Nat
  errors : Nat
  log : List (String × String)
deriving Repr

/-- Function `main`, lines 14–116: missing path argument → `sys.exit(1)`;
`json.load` failure → unhandled exception, exit status 1; non-list `result`
→ `sys.exit(1)`; no connection string → `sys.exit(1)`; connection failure →
unhandled exception, exit status 1 — all before any write. Otherwise the
loop over the records runs, the batch is committed and the process ends normally
(exit 0), whatever the per-record error count. -/
def runMain (hasArg : Bool) (json : JsonInput) (envVar : Option String)
    (envFile : Option (List String)) (dbConnects : Bool) (now : Nat)
    (t0 : Table) : RunResult :=
  if !hasArg then ⟨1, t0, 0, 0, []⟩
  else
    match json with
    | .malformed => ⟨1, t0, 0, 0, []⟩
    | .doc result =>
      let events? : Option (List CalEvent) :=
        match result with
        | none => some []
        | some (.list es) => some es
        | some .notList => none
      match events? with
      | none => ⟨1, t0, 0, 0, []⟩
      | some events =>
        if findDbUrl envVar envFile = "" then ⟨1, t0, 0, 0, []⟩
        else if !dbConnects then ⟨1, t0, 0, 0, []⟩
        else
          let s := importLoop now events ⟨t0, 0, 0, []⟩
          ⟨0, s.table, s.synced, s.errors, s.log⟩

/-- First record of the three-record scenario of §8 of the spec: a plain
timed event. -/
def evOk1 : CalEvent :=
  { id := some "a"
    summary := some "First"
    start := some { dateTime := some (some "2025-05-01T09:00:00Z") }
    «end» := some { dateTime := some (some "2025-05-01T10:00:00Z") } }

/-- Second record of the scenario: its `start.dateTime` is not a valid
ISO-8601 string, so `datetime.fromisoformat` raises during normalization. -/
def evBad2 : CalEvent :=
  { id := some "b"
    start := some { dateTime := some (some "not-a-date") }
    «end» := some { dateTime := some (some "2025-05-02T10:00:00Z") } }

/-- Third record of the scenario: an all-day event. -/
def evOk3 : CalEvent :=
  { id := some "c"
    summary := some "Third"
    start := some { date := some "2025-05-03" }
    «end» := some { date := some "2025-05-03" } }

/-- The normalized row the script produces for `evOk1`. -/
def rowOk1 : NormRow :=
  { googleEventId := "a"
    summary := "First"
    description := none
    startTime := ⟨2025, 5, 1, 9, 0, 0, some 0⟩
    endTime := ⟨2025, 5, 1, 10, 0, 0, some 0⟩
    isAllDay := false
    location := none
    attendees := "[]"
    hangoutLink := none
    htmlLink := none }

/-- The normalized row the script produces for `evOk3`. -/
def rowOk3 : NormRow :=
  { googleEventId := "c"
    summary := "Third"
    description := none
    startTime := ⟨2025, 5, 3, 0, 0, 0, some 0⟩
    endTime := ⟨2025, 5, 3, 23, 59, 59, some 0⟩
    isAllDay := true
    location := none
    attendees := "[]"
    hangoutLink := none
    htmlLink := none }

/-- A 501-character string, to exercise the 500-character truncation. -/
def longSummary : String := ⟨List.replicate 501 'x'⟩

/-- A record whose summary exceeds 500 characters. -/
def evLong : CalEvent :=
  { id := some "L"
    summary := some longSummary
    start := some { date := some "2025-06-01" }
    «end» := some { date := some "2025-06-01" } }

/-- The normalized row for `evLong`: summary cut to 500 characters. -/
def rowLong : NormRow :=
  { googleEventId := "L"
    summary := ⟨List.replicate 500 'x'⟩
    description := none
    startTime := ⟨2025, 6, 1, 0, 0, 0, some 0⟩
    endTime := ⟨2025, 6, 1, 23, 59, 59, some 0⟩
    isAllDay := true
    location := none
    attendees := "[]"
    hangoutLink := none
    htmlLink := none }

/-- A record with three attendees: one with an email, one with no email
key, one with an empty email. -/
def evAtt : CalEvent :=
  { id := some "att"
    summary := some "Standup"
    start := some { dateTime := some (some "2025-07-01T09:00:00Z") }
    «end» := some { dateTime := some (some "2025-07-01T09:15:00Z") }
    attendees := some [⟨some "a@b.c"⟩, ⟨none⟩, ⟨some ""⟩] }

/-- The normalized row for `evAtt`: only the real email survives. -/
def rowAtt : NormRow :=
  { googleEventId := "att"
    summary := "Standup"
    description := none
    startTime := ⟨2025, 7, 1, 9, 0, 0, some 0⟩
    endTime := ⟨2025, 7, 1, 9, 15, 0, some 0⟩
    isAllDay := false
    location := none
    attendees := "[\"a@b.c\"]"
    hangoutLink := none
    htmlLink := none }

/-- The date-only example of §8: `{id:"e1", start:{date:"2025-03-01"},
end:{date:"2025-03-01"}}`. -/
def evDateOnly : CalEvent :=
  { id := some "e1"
    start := some { date := some "2025-03-01" }
    «end» := some { date := some "2025-03-01" } }

/-- The stored fields for `evDateOnly`. -/
def rowDateOnly : NormRow :=
  { googleEventId := "e1"
    summary := "Untitled"
    description := none
    startTime := ⟨2025, 3, 1, 0, 0, 0, some 0⟩
    endTime := ⟨2025, 3, 1, 23, 59, 59, some 0⟩
    isAllDay := true
    location := none
    attendees := "[]"
    hangoutLink := none
    htmlLink := none }

/-- A record whose `start` carries a `dateTime` key with an empty-string
value next to a `date` value. -/
def evEmptyDT : CalEvent :=
  { id := some "d"
    start := some { dateTime := some (some ""), date := some "2025-04-01" }
    «end» := some { date := some "2025-04-01" } }

/-- The stored fields for `evEmptyDT`: not all-day, yet the start time
comes from the `date` field. -/
def rowEmptyDT : NormRow :=
  { googleEventId := "d"
    summary := "Untitled"
    description := none
    startTime := ⟨2025, 4, 1, 0, 0, 0, some 0⟩
    endTime := ⟨2025, 4, 1, 23, 59, 59, some 0⟩
    isAllDay := false
    location := none
    attendees := "[]"
    hangoutLink := none
    htmlLink := none }

/-- First record lacking an id. -/
def evNoId1 : CalEvent :=
  { summary := some "no id 1"
    start := some { date := some "2025-08-01" }
    «end» := some { date := some "2025-08-01" } }

/-- Second record lacking an id. -/
def evNoId2 : CalEvent :=
  { summary := some "no id 2"
    start := some { date := some "2025-08-02" }
    «end» := some { date := some "2025-08-02" } }

/-- The normalized row for `evNoId1`: keyed by the empty string. -/
def rowNoId1 : NormRow :=
  { googleEventId := ""
    summary := "no id 1"
    description := none
    startTime := ⟨2025, 8, 1, 0, 0, 0, some 0⟩
    endTime := ⟨2025, 8, 1, 23, 59, 59, some 0⟩
    isAllDay := true
    location := none
    attendees := "[]"
    hangoutLink := none
    htmlLink := none }

/-- The normalized row for `evNoId2`: also keyed by the empty string. -/
def rowNoId2 : NormRow :=
  { googleEventId := ""
    summary := "no id 2"
    description := none
    startTime := ⟨2025, 8, 2, 0, 0, 0, some 0⟩
    endTime := ⟨2025, 8, 2, 23, 59, 59, some 0⟩
    isAllDay := true
    location := none
    attendees := "[]"
    hangoutLink := none
    htmlLink := none }

/-- Inversion for a successful normalization: every field of the produced
row, expressed in terms of the input record. -/
theorem normalizeEvent_ok_elim {e : CalEvent} {nr : NormRow}
    (h : normalizeEvent e = .ok nr) :
    fromisoformat (pyReplaceZ (resolveTimeStr (e.start.getD {}) "T00:00:00+00:00"))
      = some nr.startTime ∧
    fromisoformat (pyReplaceZ (resolveTimeStr (e.«end».getD {}) "T23:59:59+00:00"))
      = some nr.endTime ∧
    nr.googleEventId = e.id.getD "" ∧
    nr.summary = normSummary e.summary ∧
    nr.description = e.description ∧
    nr.isAllDay = (e.start.getD {}).dateTime.isNone ∧
    nr.location = normOptText e.location ∧
    nr.attendees = jsonDumpsStrList (attendeeEmails e.attendees) ∧
    nr.hangoutLink = normOptText e.hangoutLink ∧
    nr.htmlLink = normOptText e.htmlLink := by
  simp only [normalizeEvent] at h
  split at h
  next => cases h
  next sdt hs =>
    split at h
    next => cases h
    next edt he =>
      cases h
      exact ⟨hs, he, rfl, rfl, rfl, rfl, rfl, rfl, rfl, rfl⟩

/-- C4: the stored `isAllDay` flag is true exactly when the record's
`start` object (the empty object when `start` is absent) has no `dateTime`
key; in particular any `dateTime` key, whatever its value, forces
`isAllDay = false`. -/
theorem isAllDay_iff_start_lacks_dateTime_key (e : CalEvent) (nr : NormRow)
    (h : normalizeEvent e = .ok nr) :
    (nr.isAllDay = true ↔ (e.start.getD {}).dateTime = none) ∧
    (∀ v, (e.start.getD {}).dateTime = some v → nr.isAllDay = false) := by
  obtain ⟨-, -, -, -, -, hall, -⟩ := normalizeEvent_ok_elim h
  constructor
  · rw [hall]
    exact Option.isNone_iff_eq_none
  · intro v hv
    rw [hall, hv]
    rfl

/-- Witness for C4: the all-day record of §8 stores `isAllDay = true`. -/
theorem isAllDay_iff_start_lacks_dateTime_key_witness :
    ((rowOk3.isAllDay = true ↔ (evOk3.start.getD {}).dateTime = none) ∧
     (∀ v, (evOk3.start.getD {}).dateTime = some v → rowOk3.isAllDay = false)) :=
  isAllDay_iff_start_lacks_dateTime_key evOk3 rowOk3 (by rfl)

/-- C5: the stored summary is the record's summary when that is a non-empty
string and the literal `Untitled` when the field is absent or empty, both
truncated to at most 500 characters; a longer summary is cut to exactly
500. -/
theorem summary_defaulted_and_truncated (e : CalEvent) (nr : NormRow)
    (h : normalizeEvent e = .ok nr) :
    (∀ s, e.summary = some s → s ≠ "" → nr.summary = pyTruncate s 500) ∧
    (e.summary = none ∨ e.summary = some "" → nr.summary = "Untitled") ∧
    nr.summary.length ≤ 500 ∧
    (∀ s, e.summary = some s → 500 < s.length → nr.summary.length = 500) := by
  obtain ⟨-, -, -, hsum, -⟩ := normalizeEvent_ok_elim h
  refine ⟨?_, ?_, ?_, ?_⟩
  · intro s hs hne
    simp [hsum, hs, normSummary, pyOrStr, hne]
  · rintro (hs | hs) <;>
      simp [hsum, hs, normSummary, pyOrStr, pyTruncate]
  · rw [hsum]
    show (normSummary e.summary).data.length ≤ 500
    simp only [normSummary, pyTruncate]
    simp [List.length_take]
  · intro s hs hlen
    rw [hsum, hs]
    show (normSummary (some s)).data.length = 500
    have hne : s ≠ "" := by
      intro hempty
      rw [hempty] at hlen
      simp [String.length] at hlen
    simp only [normSummary, pyTruncate, Option.getD_some, pyOrStr, if_neg hne]
    have : s.data.length = s.length := rfl
    simp [List.length_take, this]
    omega

set_option maxRecDepth 8192

/-- Witness for C5: a 501-character summary is stored as its first 500
characters. -/
theorem summary_defaulted_and_truncated_witness :
    (∀ s, evLong.summary = some s → s ≠ "" → rowLong.summary = pyTruncate s 500) ∧
    (evLong.summary = none ∨ evLong.summary = some "" → rowLong.summary = "Untitled") ∧
    rowLong.summary.length ≤ 500 ∧
    (∀ s, evLong.summary = some s → 500 < s.length → rowLong.summary.length = 500) :=
  summary_defaulted_and_truncated evLong rowLong (by rfl)

/-- C6: the stored attendees column is the JSON serialization of the email
strings of the record's attendees, keeping only present, non-empty emails
in input order; an absent `attendees` field stores the encoding `[]`,
never NULL. -/
theorem attendees_stored_as_json_text (e : CalEvent) (nr : NormRow)
    (h : normalizeEvent e = .ok nr) :
    nr.attendees = jsonDumpsStrList (attendeeEmails e.attendees) ∧
    (e.attendees = none → nr.attendees = "[]") := by
  obtain ⟨-, -, -, -, -, -, -, hatt, -⟩ := normalizeEvent_ok_elim h
  refine ⟨hatt, fun hnone => ?_⟩
  rw [hatt, hnone]
  rfl

/-- Witness for C6: of three attendees — a real email, a missing email key
and an empty email — only the real one is serialized. -/
theorem attendees_stored_as_json_text_witness :
    rowAtt.attendees = jsonDumpsStrList (attendeeEmails evAtt.attendees) ∧
    (evAtt.attendees = none → rowAtt.attendees = "[]") :=
  attendees_stored_as_json_text evAtt rowAtt (by rfl)

/-- C3: start and end times resolve to the truthy `dateTime` value when
one is given; otherwise they are synthesized from `date` with suffix
`T00:00:00` (start) or `T23:59:59` (end) at UTC; otherwise the fallback
date `2026-01-01` is used with the same suffixes — and the parsed result
is what the row stores. The §8 date-only example lands on
`2025-03-01T00:00:00Z` / `2025-03-01T23:59:59Z` with `isAllDay = true`. -/
theorem start_end_time_resolution (e : CalEvent) (nr : NormRow)
    (h : normalizeEvent e = .ok nr) :
    (∀ tf suffix s, truthyStr tf.dateTime = some s → resolveTimeStr tf suffix = s) ∧
    (∀ tf suffix, truthyStr tf.dateTime = none →
        ∀ d, tf.date = some d → resolveTimeStr tf suffix = d ++ suffix) ∧
    (∀ tf suffix, truthyStr tf.dateTime = none → tf.date = none →
        resolveTimeStr tf suffix = "2026-01-01" ++ suffix) ∧
    fromisoformat (pyReplaceZ (resolveTimeStr (e.start.getD {}) "T00:00:00+00:00"))
      = some nr.startTime ∧
    fromisoformat (pyReplaceZ (resolveTimeStr (e.«end».getD {}) "T23:59:59+00:00"))
      = some nr.endTime ∧
    normalizeEvent evDateOnly = .ok rowDateOnly ∧
    rowDateOnly.isAllDay = true ∧
    rowDateOnly.startTime = ⟨2025, 3, 1, 0, 0, 0, some 0⟩ ∧
    rowDateOnly.endTime = ⟨2025, 3, 1, 23, 59, 59, some 0⟩ := by
  obtain ⟨hstart, hend, -⟩ := normalizeEvent_ok_elim h
  refine ⟨?_, ?_, ?_, hstart, hend, by rfl, rfl, rfl, rfl⟩
  · intro tf suffix s hs
    simp [resolveTimeStr, hs]
  · intro tf suffix hnone d hd
    simp [resolveTimeStr, hnone, hd]
  · intro tf suffix hnone hd
    simp [resolveTimeStr, hnone, hd]

/-- Witness for C3: the resolution trichotomy and the parsed storage
applied to the §8 date-only example. -/
theorem start_end_time_resolution_witness :
    (∀ tf suffix s, truthyStr tf.dateTime = some s → resolveTimeStr tf suffix = s) ∧
    (∀ tf suffix, truthyStr tf.dateTime = none →
        ∀ d, tf.date = some d → resolveTimeStr tf suffix = d ++ suffix) ∧
    (∀ tf suffix, truthyStr tf.dateTime = none → tf.date = none →
        resolveTimeStr tf suffix = "2026-01-01" ++ suffix) ∧
    fromisoformat (pyReplaceZ (resolveTimeStr (evDateOnly.start.getD {}) "T00:00:00+00:00"))
      = some rowDateOnly.startTime ∧
    fromisoformat (pyReplaceZ (resolveTimeStr (evDateOnly.«end».getD {}) "T23:59:59+00:00"))
      = some rowDateOnly.endTime ∧
    normalizeEvent evDateOnly = .ok rowDateOnly ∧
    rowDateOnly.isAllDay = true ∧
    rowDateOnly.startTime = ⟨2025, 3, 1, 0, 0, 0, some 0⟩ ∧
    rowDateOnly.endTime = ⟨2025, 3, 1, 23, 59, 59, some 0⟩ :=
  start_end_time_resolution evDateOnly rowDateOnly (by rfl)

/-- C10: a `dateTime` key that is present but null-valued or empty-valued
makes `isAllDay = false` (the flag tests key presence) while the stored
start time is synthesized from the `date` field or the `2026-01-01`
fallback (the time resolution tests truthiness). -/
theorem empty_dateTime_key_mixed_semantics (e : CalEvent) (nr : NormRow)
    (tf : TimeField) (hstart : e.start = some tf)
    (hdt : tf.dateTime = some none ∨ tf.dateTime = some (some ""))
    (h : normalizeEvent e = .ok nr) :
    nr.isAllDay = false ∧
    resolveTimeStr tf "T00:00:00+00:00"
      = tf.date.getD "2026-01-01" ++ "T00:00:00+00:00" ∧
    fromisoformat (pyReplaceZ (tf.date.getD "2026-01-01" ++ "T00:00:00+00:00"))
      = some nr.startTime := by
  obtain ⟨hst, -, -, -, -, hall, -⟩ := normalizeEvent_ok_elim h
  have htruthy : truthyStr tf.dateTime = none := by
    rcases hdt with hdt | hdt <;> simp [truthyStr, hdt]
  have hres : resolveTimeStr tf "T00:00:00+00:00"
      = tf.date.getD "2026-01-01" ++ "T00:00:00+00:00" := by
    simp [resolveTimeStr, htruthy]
  refine ⟨?_, hres, ?_⟩
  · rw [hall, hstart]
    rcases hdt with hdt | hdt <;> simp [hdt]
  · rw [hstart] at hst
    rw [Option.getD_some, hres] at hst
    exact hst

/-- Witness for C10: a record with `start = {dateTime: "", date:
"2025-04-01"}` stores `isAllDay = false` and start time
`2025-04-01T00:00:00Z`. -/
theorem empty_dateTime_key_mixed_semantics_witness :
    rowEmptyDT.isAllDay = false ∧
    resolveTimeStr { dateTime := some (some ""), date := some "2025-04-01" }
        "T00:00:00+00:00"
      = ({ dateTime := some (some ""), date := some "2025-04-01" }
          : TimeField).date.getD "2026-01-01" ++ "T00:00:00+00:00" ∧
    fromisoformat (pyReplaceZ
        (({ dateTime := some (some ""), date := some "2025-04-01" }
          : TimeField).date.getD "2026-01-01" ++ "T00:00:00+00:00"))
      = some rowEmptyDT.startTime :=
  empty_dateTime_key_mixed_semantics evEmptyDT rowEmptyDT
    { dateTime := some (some ""), date := some "2025-04-01" }
    (by rfl) (Or.inr rfl) (by rfl)

/-- C8: the id is used as the upsert key with no non-emptiness check — a
record missing its id normalizes under the empty-string key, so id-less
records all collide onto one single stored row. -/
theorem missing_id_collides_on_empty_key (e1 e2 : CalEvent) (nr1 nr2 : NormRow)
    (now1 now2 : Nat)
    (h1id : e1.id = none) (h2id : e2.id = none)
    (h1 : normalizeEvent e1 = .ok nr1) (h2 : normalizeEvent e2 = .ok nr2) :
    nr1.googleEventId = "" ∧ nr2.googleEventId = "" ∧
    executeUpsert (executeUpsert [] nr1 now1) nr2 now2 = [nr2.toRow now2] := by
  obtain ⟨-, -, hk1, -⟩ := normalizeEvent_ok_elim h1
  obtain ⟨-, -, hk2, -⟩ := normalizeEvent_ok_elim h2
  rw [h1id] at hk1
  rw [h2id] at hk2
  refine ⟨hk1, hk2, ?_⟩
  simp [executeUpsert, hasKey, NormRow.toRow, hk1, hk2]

/-- Witness for C8: two concrete id-less records imported in sequence leave
exactly one row, keyed by the empty string. -/
theorem missing_id_collides_on_empty_key_witness :
    rowNoId1.googleEventId = "" ∧ rowNoId2.googleEventId = "" ∧
    executeUpsert (executeUpsert [] rowNoId1 5) rowNoId2 9 = [rowNoId2.toRow 9] :=
  missing_id_collides_on_empty_key evNoId1 evNoId2 rowNoId1 rowNoId2 5 9
    rfl rfl (by rfl) (by rfl)

/-- One loop iteration moves the counter sum up by exactly one: `synced`
on success, `errors` on failure, never both. -/
theorem processEvent_counter_step (now : Nat) (s : LoopState) (e : CalEvent) :
    (processEvent now s e).synced + (processEvent now s e).errors
      = s.synced + s.errors + 1 ∧
    (((processEvent now s e).synced = s.synced + 1 ∧
      (processEvent now s e).errors = s.errors) ∨
     ((processEvent now s e).synced = s.synced ∧
      (processEvent now s e).errors = s.errors + 1)) := by
  cases h : normalizeEvent e with
  | ok nr =>
    have h1 : (processEvent now s e).synced = s.synced + 1 := by
      simp [processEvent, h]
    have h2 : (processEvent now s e).errors = s.errors := by
      simp [processEvent, h]
    exact ⟨by omega, Or.inl ⟨h1, h2⟩⟩
  | error msg =>
    have h1 : (processEvent now s e).synced = s.synced := by
      simp [processEvent, h]
    have h2 : (processEvent now s e).errors = s.errors + 1 := by
      simp [processEvent, h]
    exact ⟨by omega, Or.inr ⟨h1, h2⟩⟩

/-- The counter sum grows by the number of processed records. -/
theorem importLoop_counter_sum (now : Nat) (events : List CalEvent)
    (s : LoopState) :
    (importLoop now events s).synced + (importLoop now events s).errors
      = s.synced + s.errors + events.length := by
  induction events generalizing s with
  | nil => rfl
  | cons e rest ih =>
    have hcons : importLoop now (e :: rest) s
        = importLoop now rest (processEvent now s e) := rfl
    have hstep := (processEvent_counter_step now s e).1
    have hlen : (e :: rest).length = rest.length + 1 := rfl
    rw [hcons, ih (processEvent now s e)]
    omega

/-- C9: over any batch each record lands in exactly one of the two
counters, so the reported totals always satisfy
`synced + errors = number of records`. -/
theorem counters_partition_batch (now : Nat) (events : List CalEvent)
    (s : LoopState) (t0 : Table) :
    ((importLoop now events s).synced + (importLoop now events s).errors
        = s.synced + s.errors + events.length) ∧
    (∀ e, (((processEvent now s e).synced = s.synced + 1 ∧
            (processEvent now s e).errors = s.errors) ∨
           ((processEvent now s e).synced = s.synced ∧
            (processEvent now s e).errors = s.errors + 1))) ∧
    ((importLoop now events ⟨t0, 0, 0, []⟩).synced
        + (importLoop now events ⟨t0, 0, 0, []⟩).errors = events.length) ∧
    0 ≤ (importLoop now events ⟨t0, 0, 0, []⟩).synced ∧
    0 ≤ (importLoop now events ⟨t0, 0, 0, []⟩).errors := by
  refine ⟨importLoop_counter_sum now events s,
    fun e => (processEvent_counter_step now s e).2, ?_, Nat.zero_le _, Nat.zero_le _⟩
  have := importLoop_counter_sum now events ⟨t0, 0, 0, []⟩
  simpa using this

/-- C2: a record whose normalization raises is caught — the error counter
steps, the record's id and the message are logged, the table is untouched
and the loop continues with the remaining records; in the three-record
batch of §8 whose second record fails, the run reports `synced = 2`,
`errors = 1` and persists exactly the first and third rows. -/
theorem record_error_isolated (now : Nat) (s : LoopState) (e : CalEvent)
    (msg : String) (rest : List CalEvent)
    (h : normalizeEvent e = .error msg) :
    processEvent now s e
      = { s with errors := s.errors + 1,
                 log := s.log ++ [(e.id.getD "unknown", msg)] } ∧
    importLoop now (e :: rest) s
      = importLoop now rest
          { s with errors := s.errors + 1,
                   log := s.log ++ [(e.id.getD "unknown", msg)] } ∧
    (importLoop now [evOk1, evBad2, evOk3] ⟨[], 0, 0, []⟩).synced = 2 ∧
    (importLoop now [evOk1, evBad2, evOk3] ⟨[], 0, 0, []⟩).errors = 1 ∧
    (importLoop now [evOk1, evBad2, evOk3] ⟨[], 0, 0, []⟩).table
      = [rowOk1.toRow now, rowOk3.toRow now] := by
  have hstep : processEvent now s e
      = { s with errors := s.errors + 1,
                 log := s.log ++ [(e.id.getD "unknown", msg)] } := by
    simp only [processEvent, h]
  refine ⟨hstep, ?_, by rfl, by rfl, by rfl⟩
  have hcons : importLoop now (e :: rest) s
      = importLoop now rest (processEvent now s e) := rfl
  rw [hcons, hstep]

/-- Witness for C2: instantiated at the failing second record of the
three-record batch. -/
theorem record_error_isolated_witness :
    processEvent 7 ⟨[], 0, 0, []⟩ evBad2
      = ⟨[], 0, 1, [("b", "Invalid isoformat string: not-a-date")]⟩ ∧
    importLoop 7 [evBad2, evOk3] ⟨[], 0, 0, []⟩
      = importLoop 7 [evOk3]
          ⟨[], 0, 1, [("b", "Invalid isoformat string: not-a-date")]⟩ ∧
    (importLoop 7 [evOk1, evBad2, evOk3] ⟨[], 0, 0, []⟩).synced = 2 ∧
    (importLoop 7 [evOk1, evBad2, evOk3] ⟨[], 0, 0, []⟩).errors = 1 ∧
    (importLoop 7 [evOk1, evBad2, evOk3] ⟨[], 0, 0, []⟩).table
      = [rowOk1.toRow 7, rowOk3.toRow 7] :=
  record_error_isolated 7 ⟨[], 0, 0, []⟩ evBad2
    "Invalid isoformat string: not-a-date" [evOk3] (by rfl)

/-- The duplicate-key test answers membership in the key column. -/
theorem hasKey_iff_mem_keysOf (t : Table) (k : String) :
    hasKey t k = true ↔ k ∈ keysOf t := by
  simp [hasKey, keysOf, List.any_eq_true]

/-- An upsert hitting an existing key leaves the key column unchanged. -/
theorem keysOf_executeUpsert_update {t : Table} {nr : NormRow} (now : Nat)
    (h : hasKey t nr.googleEventId = true) :
    keysOf (executeUpsert t nr now) = keysOf t := by
  simp only [executeUpsert, if_pos h, keysOf, List.map_map]
  refine List.map_congr_left fun x _ => ?_
  by_cases hx : x.googleEventId = nr.googleEventId
  · simp [hx, NormRow.toRow]
  · simp [hx]

/-- An upsert preserves key-column distinctness. -/
theorem executeUpsert_keys_nodup {t : Table} (nr : NormRow) (now : Nat)
    (ht : (keysOf t).Nodup) : (keysOf (executeUpsert t nr now)).Nodup := by
  by_cases h : hasKey t nr.googleEventId = true
  · rw [keysOf_executeUpsert_update now h]
    exact ht
  · have hmem : nr.googleEventId ∉ keysOf t := fun hm =>
      h ((hasKey_iff_mem_keysOf t nr.googleEventId).mpr hm)
    have hne : hasKey t nr.googleEventId = false := by
      cases hval : hasKey t nr.googleEventId
      · rfl
      · exact absurd hval h
    simp only [executeUpsert, hne, Bool.false_eq_true, if_false, keysOf,
      List.map_append]
    simp only [keysOf] at ht hmem
    simp [List.nodup_append, ht, hmem, NormRow.toRow, eq_comm]

/-- The import loop preserves key-column distinctness of the table. -/
theorem importLoop_keys_nodup (now : Nat) (events : List CalEvent)
    (s : LoopState) (hs : (keysOf s.table).Nodup) :
    (keysOf (importLoop now events s).table).Nodup := by
  induction events generalizing s with
  | nil => exact hs
  | cons e rest ih =>
    have hcons : importLoop now (e :: rest) s
        = importLoop now rest (processEvent now s e) := rfl
    rw [hcons]
    refine ih (processEvent now s e) ?_
    cases h : normalizeEvent e with
    | ok nr =>
      have : (processEvent now s e).table = executeUpsert s.table nr now := by
        simp [processEvent, h]
      rw [this]
      exact executeUpsert_keys_nodup nr now hs
    | error msg =>
      have : (processEvent now s e).table = s.table := by
        simp [processEvent, h]
      rw [this]
      exact hs

/-- C1: a table whose key column is duplicate-free stays so under any
sequence of imports — one row per distinct `googleEventId`; a first import of
a key appends a fresh row stamped `syncedAt = now`, and an import of an
existing key keeps the key column and the row count, rewrites the matching
row to the new field values with `syncedAt = now`, and leaves every other
row as it was. -/
theorem one_row_per_googleEventId (t : Table) (nr : NormRow) (now : Nat)
    (events : List CalEvent) (s : LoopState)
    (ht : (keysOf t).Nodup) (hs : (keysOf s.table).Nodup) :
    (keysOf (executeUpsert t nr now)).Nodup ∧
    (hasKey t nr.googleEventId = false →
        executeUpsert t nr now = t ++ [nr.toRow now]) ∧
    (hasKey t nr.googleEventId = true →
        keysOf (executeUpsert t nr now) = keysOf t ∧
        (executeUpsert t nr now).length = t.length ∧
        ∀ x ∈ executeUpsert t nr now,
          (x.googleEventId = nr.googleEventId → x = nr.toRow now) ∧
          (x.googleEventId ≠ nr.googleEventId → x ∈ t)) ∧
    (keysOf (importLoop now events s).table).Nodup := by
  refine ⟨executeUpsert_keys_nodup nr now ht, ?_, ?_,
    importLoop_keys_nodup now events s hs⟩
  · intro hfalse
    simp [executeUpsert, hfalse]
  · intro htrue
    refine ⟨keysOf_executeUpsert_update now htrue, ?_, ?_⟩
    · simp [executeUpsert, htrue]
    · intro x hx
      simp only [executeUpsert, if_pos htrue, List.mem_map] at hx
      obtain ⟨y, hy, hyx⟩ := hx
      by_cases hkey : y.googleEventId = nr.googleEventId
      · rw [if_pos hkey] at hyx
        constructor
        · intro _
          exact hyx.symm
        · intro hne
          exact absurd (hyx ▸ rfl : x.googleEventId = nr.googleEventId) hne
      · rw [if_neg hkey] at hyx
        constructor
        · intro hxe
          exact absurd (hyx ▸ hxe) hkey
        · intro _
          exact hyx ▸ hy

/-- Witness for C1: a one-row table re-imported under the same key keeps a
single row with the new values, while a fresh key appends. -/
theorem one_row_per_googleEventId_witness :
    (keysOf (executeUpsert [rowNoId1.toRow 1] rowOk1 2)).Nodup ∧
    (hasKey [rowNoId1.toRow 1] rowOk1.googleEventId = false →
        executeUpsert [rowNoId1.toRow 1] rowOk1 2
          = [rowNoId1.toRow 1] ++ [rowOk1.toRow 2]) ∧
    (hasKey [rowNoId1.toRow 1] rowOk1.googleEventId = true →
        keysOf (executeUpsert [rowNoId1.toRow 1] rowOk1 2)
          = keysOf [rowNoId1.toRow 1] ∧
        (executeUpsert [rowNoId1.toRow 1] rowOk1 2).length
          = [rowNoId1.toRow 1].length ∧
        ∀ x ∈ executeUpsert [rowNoId1.toRow 1] rowOk1 2,
          (x.googleEventId = rowOk1.googleEventId → x = rowOk1.toRow 2) ∧
          (x.googleEventId ≠ rowOk1.googleEventId → x ∈ [rowNoId1.toRow 1])) ∧
    (keysOf (importLoop 3 [evOk1, evOk1, evOk3] ⟨[], 0, 0, []⟩).table).Nodup :=
  one_row_per_googleEventId [rowNoId1.toRow 1] rowOk1 2 [evOk1, evOk1, evOk3]
    ⟨[], 0, 0, []⟩ (by decide) (by decide)

/-- C7: a missing path argument, a malformed JSON document, a non-list
`result` field or an unresolvable connection string each end the run with
exit code 1 and an untouched table; with those in order the run completes
with exit code 0 whatever the per-record outcomes. -/
theorem exit_code_contract (json : JsonInput) (envVar : Option String)
    (envFile : Option (List String)) (dbOk : Bool) (now : Nat) (t0 : Table)
    (events : List CalEvent)
    (hurl : findDbUrl envVar envFile ≠ "") :
    runMain false json envVar envFile dbOk now t0 = ⟨1, t0, 0, 0, []⟩ ∧
    runMain true .malformed envVar envFile dbOk now t0 = ⟨1, t0, 0, 0, []⟩ ∧
    runMain true (.doc (some .notList)) envVar envFile dbOk now t0
      = ⟨1, t0, 0, 0, []⟩ ∧
    (∀ envV envF, findDbUrl envV envF = "" →
        runMain true (.doc (some (.list events))) envV envF dbOk now t0
          = ⟨1, t0, 0, 0, []⟩) ∧
    (runMain true (.doc (some (.list events))) envVar envFile true now t0).exitCode
      = 0 := by
  refine ⟨rfl, rfl, rfl, ?_, ?_⟩
  · intro envV envF hempty
    simp [runMain, hempty]
  · simp [runMain, hurl]

/-- Witness for C7: a run over the error-containing three-record batch with
a resolvable connection string still exits 0, and each fatal precondition
exits 1 without writing. -/
theorem exit_code_contract_witness :
    runMain false .malformed (some "mysql://u:p@h/db") none true 4
        [rowNoId1.toRow 1] = ⟨1, [rowNoId1.toRow 1], 0, 0, []⟩ ∧
    runMain true .malformed (some "mysql://u:p@h/db") none true 4
        [rowNoId1.toRow 1] = ⟨1, [rowNoId1.toRow 1], 0, 0, []⟩ ∧
    runMain true (.doc (some .notList)) (some "mysql://u:p@h/db") none true 4
        [rowNoId1.toRow 1] = ⟨1, [rowNoId1.toRow 1], 0, 0, []⟩ ∧
    (∀ envV envF, findDbUrl envV envF = "" →
        runMain true (.doc (some (.list [evOk1, evBad2, evOk3]))) envV envF
            true 4 [rowNoId1.toRow 1] = ⟨1, [rowNoId1.toRow 1], 0, 0, []⟩) ∧
    (runMain true (.doc (some (.list [evOk1, evBad2, evOk3])))
        (some "mysql://u:p@h/db") none true 4 [rowNoId1.toRow 1]).exitCode = 0 :=
  exit_code_contract .malformed (some "mysql://u:p@h/db") none true 4
    [rowNoId1.toRow 1] [evOk1, evBad2, evOk3] (by decide)

end CalendarImport
